import Mathlib

/-!
Verification of the `tracs distance` command (src/tracs/distance.py) of the
tracm repository, together with the legacy `mtran dist` entry point
(src/mtran/distance.py).  The pairwise SNP engine (`TRACS.pairsnp`) and the
transmission model (`tracs.transcluster.calculate_trans_prob`) are compiled
extensions / modules that are not part of the available source; they enter the
embedding as oracle parameters, and the facts about them that the claims need
are modelled from the specification and marked as such.
-/

namespace Tracm

/-! ### String helpers (os.path.basename, split("."), replace("_combined","")) -/

/-- Characters of a path after the final slash, as in os.path.basename. -/
def basenameL (cs : List Char) : List Char :=
  (cs.reverse.takeWhile (fun c => c ≠ '/')).reverse

/-- Characters of a string up to (excluding) the first dot, the value of
Python `s.split(".")[0]`. -/
def takeUntilDot : List Char → List Char
  | [] => []
  | c :: cs => if c = '.' then [] else c :: takeUntilDot cs

/-- Left-to-right, non-overlapping removal of every occurrence of the
substring `_combined`, the value of Python `s.replace("_combined", "")`. -/
def removeCombinedL : List Char → List Char
  | '_' :: 'c' :: 'o' :: 'm' :: 'b' :: 'i' :: 'n' :: 'e' :: 'd' :: rest =>
      removeCombinedL rest
  | c :: cs => c :: removeCombinedL cs
  | [] => []

/-- The per-alignment identifier written in the `MSA file` column
(src/tracs/distance.py lines 208-209):
`ref = os.path.basename(msa).split(".")[0]; ref = ref.replace("_combined", "")`. -/
def refName (msa : String) : String :=
  ⟨removeCombinedL (takeUntilDot (basenameL msa.data))⟩

/-! ### Output rows -/

/-- One comma-separated output row of the tracs distance command, with the
nine fields in the order they are written (src/tracs/distance.py lines
223-238 and 243-258).  Fields that the Python code converts with `str` are
carried as the resulting strings. -/
structure Row where
  sampleA : String
  sampleB : String
  dateDiff : String
  snpDist : String
  transDist : String
  expectedK : String
  filtDist : String
  sitesConsidered : String
  msaFile : String
deriving DecidableEq, Repr

/-- Field list of a row, in the order joined by `",".join([...])`. -/
def Row.fields (r : Row) : List String :=
  [r.sampleA, r.sampleB, r.dateDiff, r.snpDist, r.transDist, r.expectedK,
   r.filtDist, r.sitesConsidered, r.msaFile]

/-- Python `",".join(fields)`. -/
def pyRow (r : Row) : String := String.intercalate "," r.fields

/-- Header line written by the tracs distance command
(src/tracs/distance.py lines 156-158). -/
def tracsHeader : String :=
  "sampleA,sampleB,date difference,SNP distance,transmission distance,expected K,filtered SNP distance,sites considered,MSA file"

/-- Header line written by the legacy mtran dist command
(src/mtran/distance.py line 128). -/
def mtranHeader : String :=
  "sampleA,sampleB,date difference,SNP distance,transmission distance,expected K"

/-! ### Inputs produced by the external collaborators -/

/-- Result of the `TRACS.pairsnp` extension for one alignment, the list
`snp_dists` of src/tracs/distance.py lines 168-176: parallel lists of pair
row indices, pair column indices, raw SNP distances, sample names, filtered
SNP distances and sites-considered counts.  The extension itself is not part
of the available source, so its output is an input of the embedding. -/
structure SnpDists where
  I : List Nat
  J : List Nat
  dist : List Int
  names : List String
  filt : List Int
  ncomp : List Nat
deriving DecidableEq, Repr

/-- Modelled from the spec: result lists of
`tracs.transcluster.calculate_trans_prob` (module not under src/).  Per the
specification of the TransmissionModel, the first returned list
(`transmission_dists`, the `transmission distance` column) holds each pair's
most likely number of intermediate hosts, the second (`expectedk`, the
`expected K` column) holds the expected value E[K], and the third
(`datediff`) the date differences. -/
structure TransProb where
  tranD : List Nat
  expK : List ℚ
  dateD : List String
deriving DecidableEq, Repr

/-- The option values of the distance command that the output loop of
src/tracs/distance.py lines 155-259 consults. -/
structure DistArgs where
  hasMetadata : Bool
  recomb_filter : Bool
  trans_threshold : Option Int
deriving DecidableEq, Repr

/-- Emission test of the dated branch (src/tracs/distance.py line 222):
`(args.trans_threshold is None) or (args.trans_threshold >= expK)`. -/
def keepPair (thresh : Option Int) (eK : ℚ) : Bool :=
  match thresh with
  | none => true
  | some k => decide (eK ≤ (k : ℚ))

/-- Row constructed by the dated writer loop (src/tracs/distance.py lines
223-238) from one tuple of the eight zipped lists
`(i, j, dateD, snpD, expK, tranD, filtD, ncomp)`. -/
def mkDatedRow (names : List String) (ref : String) (fstr : ℚ → String)
    (t : Nat × Nat × String × Int × ℚ × Nat × String × Nat) : Row :=
  ⟨names.getD t.1 "", names.getD t.2.1 "", t.2.2.1, toString t.2.2.2.1,
   toString t.2.2.2.2.2.1, fstr t.2.2.2.2.1, t.2.2.2.2.2.2.1,
   toString t.2.2.2.2.2.2.2, ref⟩

/-- The dated writer loop (src/tracs/distance.py lines 211-238): zip the
eight lists, keep the tuples passing the threshold test on `expK`, and build
a row from each.  `fstr` stands for Python `str` on the float `expK`. -/
def datedRows (names : List String) (thresh : Option Int) (ref : String)
    (fstr : ℚ → String) (I J : List Nat) (dDs : List String) (D : List Int)
    (eKs : List ℚ) (tDs : List Nat) (F : List String) (N : List Nat) :
    List Row :=
  ((I.zip (J.zip (dDs.zip (D.zip (eKs.zip (tDs.zip (F.zip N))))))).filter
      (fun t => keepPair thresh t.2.2.2.2.1)).map
    (mkDatedRow names ref fstr)

/-- Row constructed by the undated writer loop (src/tracs/distance.py lines
243-258) from one tuple of the five zipped lists `(i, j, snpD, filtD, ncomp)`;
the date difference, transmission distance and expected K columns hold the
literal `NA`. -/
def mkUndatedRow (names : List String) (ref : String)
    (t : Nat × Nat × Int × String × Nat) : Row :=
  ⟨names.getD t.1 "", names.getD t.2.1 "", "NA", toString t.2.2.1, "NA", "NA",
   t.2.2.2.1, toString t.2.2.2.2, ref⟩

/-- The undated writer loop (src/tracs/distance.py lines 240-258): every
zipped tuple produces a row, with no threshold test. -/
def undatedRows (names : List String) (ref : String) (I J : List Nat)
    (D : List Int) (F : List String) (N : List Nat) : List Row :=
  (I.zip (J.zip (D.zip (F.zip N)))).map (mkUndatedRow names ref)

/-- Processing of one alignment (src/tracs/distance.py lines 159-258), with
the external `calculate_trans_prob` supplied as the oracle `ctp`, applied to
the index lists and a distance list exactly as at lines 183-203: the filtered
distances when the recombination filter is on, the raw distances otherwise.
When the filter is off and the dated branch is taken, line 204 overwrites the
filtered-distance list with `"NA"` entries before writing. -/
def processMsa (args : DistArgs) (fstr : ℚ → String)
    (ctp : List Nat → List Nat → List Int → TransProb)
    (msa : String) (sd : SnpDists) : List Row :=
  let ref := refName msa
  if args.hasMetadata && decide (0 < sd.I.length) then
    let tp := ctp sd.I sd.J (if args.recomb_filter then sd.filt else sd.dist)
    let filtStrs := if args.recomb_filter then sd.filt.map toString
      else List.replicate sd.dist.length "NA"
    datedRows sd.names args.trans_threshold ref fstr
      sd.I sd.J tp.dateD sd.dist tp.expK tp.tranD filtStrs sd.ncomp
  else
    undatedRows sd.names ref sd.I sd.J sd.dist (sd.filt.map toString) sd.ncomp

/-- Lines of the output file of the tracs distance command on the error-free
path (src/tracs/distance.py lines 155-259): the header, then the joined rows
of each alignment in order.  Each alignment is paired with the `pairsnp`
result computed for it. -/
def distanceOutput (args : DistArgs) (fstr : ℚ → String)
    (ctp : List Nat → List Nat → List Int → TransProb)
    (msas : List (String × SnpDists)) : List String :=
  tracsHeader ::
    (msas.flatMap (fun p => processMsa args fstr ctp p.1 p.2)).map pyRow

/-- Lines of the output file of the legacy mtran dist command
(src/mtran/distance.py lines 127-164): its own six-column header followed by
the body rows. -/
def mtranOutputLines (body : List String) : List String :=
  mtranHeader :: body

/-- The alignment loop of src/tracs/distance.py lines 159-258 with its
failure behaviour made explicit: the body of the loop (`step`, covering
pairsnp, date handling and row production for one alignment file) may raise,
and the loop has no handler, so the first raise aborts the remaining
iterations.  The result is the list of rows written before the abort and the
error that escaped, if any. -/
def distanceRun (step : String → Except String (List Row)) :
    List String → List Row × Option String
  | [] => ([], none)
  | m :: ms =>
    match step m with
    | Except.error e => ([], some e)
    | Except.ok rows =>
      let r := distanceRun step ms
      (rows ++ r.1, r.2)

/-! ### Option validation and defaults (distance_parser, lines 15-131) -/

/-- Argparse type converter `check_positive_int` imported by
src/tracs/distance.py line 10; its definition (present in the repository as
the commented copy at src/mtran/utils.py lines 241-245) raises
ArgumentTypeError when the parsed integer is not positive. -/
def check_positive_int (v : Int) : Except String Int :=
  if v ≤ 0 then Except.error "invalid positive int value" else Except.ok v

/-- Argparse type converter `check_positive_float` imported by
src/tracs/distance.py line 10; its definition (present in the repository as
the commented copy at src/mtran/utils.py lines 248-254) raises
ArgumentTypeError when the parsed number is not positive. -/
def check_positive_float (v : ℚ) : Except String ℚ :=
  if v ≤ 0 then Except.error "invalid positive float value" else Except.ok v

/-- Effective SNP threshold: the default 2147483647 when the option is
absent, otherwise the converter applied to the supplied value
(src/tracs/distance.py lines 57-64). -/
def parseSnpThreshold : Option Int → Except String Int
  | none => Except.ok 2147483647
  | some v => check_positive_int v

/-- Effective clock rate: the default `1e-3 * 29903` when the option is
absent, otherwise the converter applied to the supplied value
(src/tracs/distance.py lines 76-82). -/
def parseClockRate : Option ℚ → Except String ℚ
  | none => Except.ok ((1 / 1000) * 29903)
  | some v => check_positive_float v

/-- Effective transmission rate: the default 73.0 when the option is absent,
otherwise the converter applied to the supplied value
(src/tracs/distance.py lines 84-90). -/
def parseTransRate : Option ℚ → Except String ℚ
  | none => Except.ok 73
  | some v => check_positive_float v

/-- True exactly on the Ok branch of an Except value. -/
def exceptOk {ε α : Type} : Except ε α → Bool
  | Except.ok _ => true
  | Except.error _ => false

/-- Defaults declared by `distance_parser` (src/tracs/distance.py lines
55-119). -/
structure DistanceDefaults where
  snp_threshold : Int
  clock_rate : ℚ
  trans_rate : ℚ
  trans_threshold : Option Int
  precision : ℚ
  recomb_filter : Bool
  n_cpu : Int
deriving DecidableEq, Repr

/-- The default values exactly as written in `distance_parser`. -/
def distanceParserDefaults : DistanceDefaults :=
  ⟨2147483647, (1 / 1000) * 29903, 73, none, 1 / 100, false, 1⟩

/-- Modelled from the spec: behaviour of the `TRACS.pairsnp` extension (not
under src/) when the recombination filter is disabled, for an alignment of
width `L` whose pairs have the given counts of unresolved positions: the
filtered-distance list it returns equals the raw-distance list, and the
sites-considered list holds `L` minus each pair's unresolved count. -/
def pairsnpNoFilterOk (L : Nat) (unres : List Nat) (sd : SnpDists) : Prop :=
  sd.filt = sd.dist ∧ sd.ncomp = unres.map (fun u => L - u)

/-! ### Helper lemmas -/

theorem zip_getElem {α β : Type} :
    ∀ (l₁ : List α) (l₂ : List β) (k : Nat),
      (l₁.zip l₂)[k]? =
        l₁[k]?.bind fun a => l₂[k]?.map fun b => (a, b) := by
  intro l₁
  induction l₁ with
  | nil => intro l₂ k; simp
  | cons a as ih =>
    intro l₂ k
    cases l₂ with
    | nil => simp
    | cons b bs =>
      cases k with
      | zero => simp
      | succ k => simpa using ih bs k

theorem undatedRows_getElem (names : List String) (ref : String)
    (I J : List Nat) (D : List Int) (F : List String) (N : List Nat)
    (k : Nat) :
    (undatedRows names ref I J D F N)[k]? =
      I[k]?.bind fun i => J[k]?.bind fun j => D[k]?.bind fun d =>
        F[k]?.bind fun f => N[k]?.map fun n =>
          mkUndatedRow names ref (i, j, d, f, n) := by
  simp only [undatedRows, List.getElem?_map, zip_getElem]
  cases hI : I[k]? <;> cases hJ : J[k]? <;> cases hD : D[k]? <;>
    cases hF : F[k]? <;> cases hN : N[k]? <;> simp

theorem undatedRows_length (names : List String) (ref : String)
    (I J : List Nat) (D : List Int) (F : List String) (N : List Nat)
    (hJ : J.length = I.length) (hD : D.length = I.length)
    (hF : F.length = I.length) (hN : N.length = I.length) :
    (undatedRows names ref I J D F N).length = I.length := by
  simp [undatedRows, List.length_zip, hJ, hD, hF, hN]

theorem undatedRows_mem_msaFile (names : List String) (ref : String)
    (I J : List Nat) (D : List Int) (F : List String) (N : List Nat)
    (row : Row) (h : row ∈ undatedRows names ref I J D F N) :
    row.msaFile = ref := by
  simp only [undatedRows, List.mem_map] at h
  obtain ⟨t, ht, rfl⟩ := h
  rfl

theorem datedRows_mem (names : List String) (thresh : Option Int)
    (ref : String) (fstr : ℚ → String) (I J : List Nat) (dDs : List String)
    (D : List Int) (eKs : List ℚ) (tDs : List Nat) (F : List String)
    (N : List Nat) (row : Row)
    (h : row ∈ datedRows names thresh ref fstr I J dDs D eKs tDs F N) :
    row.msaFile = ref ∧ row.filtDist ∈ F := by
  simp only [datedRows, List.mem_map, List.mem_filter] at h
  obtain ⟨t, ⟨ht, hk⟩, rfl⟩ := h
  obtain ⟨i, j, dD, sD, eK, tD, fD, nc⟩ := t
  refine ⟨rfl, ?_⟩
  have h1 := (List.of_mem_zip ht).2
  have h2 := (List.of_mem_zip h1).2
  have h3 := (List.of_mem_zip h2).2
  have h4 := (List.of_mem_zip h3).2
  have h5 := (List.of_mem_zip h4).2
  have h6 := (List.of_mem_zip h5).2
  exact (List.of_mem_zip h6).1

theorem processMsa_undated (args : DistArgs) (fstr : ℚ → String)
    (ctp : List Nat → List Nat → List Int → TransProb)
    (msa : String) (sd : SnpDists) (h : args.hasMetadata = false) :
    processMsa args fstr ctp msa sd =
      undatedRows sd.names (refName msa) sd.I sd.J sd.dist
        (sd.filt.map toString) sd.ncomp := by
  simp [processMsa, h]

theorem processMsa_dated (args : DistArgs) (fstr : ℚ → String)
    (ctp : List Nat → List Nat → List Int → TransProb)
    (msa : String) (sd : SnpDists) (hm : args.hasMetadata = true)
    (hl : 0 < sd.I.length) :
    processMsa args fstr ctp msa sd =
      datedRows sd.names args.trans_threshold (refName msa) fstr sd.I sd.J
        (ctp sd.I sd.J
          (if args.recomb_filter then sd.filt else sd.dist)).dateD
        sd.dist
        (ctp sd.I sd.J
          (if args.recomb_filter then sd.filt else sd.dist)).expK
        (ctp sd.I sd.J
          (if args.recomb_filter then sd.filt else sd.dist)).tranD
        (if args.recomb_filter then sd.filt.map toString
          else List.replicate sd.dist.length "NA")
        sd.ncomp := by
  simp [processMsa, hm, hl]

theorem check_positive_int_ok (v : Int) :
    exceptOk (check_positive_int v) = true ↔ 0 < v := by
  unfold check_positive_int
  split
  · next h =>
    simp only [exceptOk, Bool.false_eq_true, false_iff]
    exact not_lt.2 h
  · next h =>
    simp only [exceptOk, true_iff]
    exact not_le.1 h

theorem check_positive_float_ok (v : ℚ) :
    exceptOk (check_positive_float v) = true ↔ 0 < v := by
  unfold check_positive_float
  split
  · next h =>
    simp only [exceptOk, Bool.false_eq_true, false_iff]
    exact not_lt.2 h
  · next h =>
    simp only [exceptOk, true_iff]
    exact not_le.1 h

/-! ### Claims -/

/-- C1: the claim says a pair is dropped if and only if its most likely
number of intermediate hosts exceeds the threshold K, the decision being made
on mostLikelyK and not on E[K].  The code (src/tracs/distance.py line 222)
compares the threshold with the expected K column instead, contradicting the
option's own help text (lines 96-98).  At the first input below the pair has
mostLikelyK = 0 ≤ K = 1 yet is dropped because E[K] = 2 > 1; at the second it
has mostLikelyK = 5 > K = 1 yet is emitted because E[K] = 0 ≤ 1. -/
theorem C1_threshold_tests_expectedK :
    processMsa ⟨true, false, some 1⟩ (fun _ => "2.0")
      (fun _ _ _ => ⟨[0], [2], ["10"]⟩) "/d/x.fa"
      ⟨[0], [1], [5], ["s1", "s2"], [5], [9]⟩ = [] ∧
    (⟨[0], [2], ["10"]⟩ : TransProb).tranD = [0] ∧ (0 : Nat) ≤ 1 ∧
    processMsa ⟨true, false, some 1⟩ (fun _ => "0.0")
      (fun _ _ _ => ⟨[5], [0], ["10"]⟩) "/d/x.fa"
      ⟨[0], [1], [5], ["s1", "s2"], [5], [9]⟩ =
      [⟨"s1", "s2", "10", "5", "5", "0.0", "NA", "9", "x"⟩] ∧
    ¬ (5 : Nat) ≤ 1 := by decide

/-- C3 counterexample: the claim says a fatal error in one alignment leaves
the remaining alignments processed, with one fatal error per failing file.
In the code the alignment loop has no handler, so the first error aborts the
run: here the second (valid) alignment contributes no rows and the run ends
with the single escaped error. -/
theorem C3_abort_counterexample :
    distanceRun
      (fun m => if m = "/a/bad.fa" then Except.error "boom"
        else Except.ok [⟨"s1", "s2", "NA", "5", "NA", "NA", "5", "9", "good"⟩])
      ["/a/bad.fa", "/a/good.fa"] = ([], some "boom") := by decide

/-- C3 (amended): an error raised while processing one alignment aborts the
whole run; alignments after the failing one are not processed, no rows are
written for them, and only that one error surfaces.  There is no per-file
recovery and no fail-fast opt-in. -/
theorem C3_first_error_aborts (step : String → Except String (List Row))
    (m : String) (ms : List String) (e : String)
    (h : step m = Except.error e) :
    distanceRun step (m :: ms) = ([], some e) := by
  simp [distanceRun, h]

theorem C3_first_error_aborts_witness :
    (fun _ => (Except.error "boom" : Except String (List Row))) "/a/bad.fa" =
      Except.error "boom" ∧
    distanceRun (fun _ => Except.error "boom") ["/a/bad.fa", "/x.fa"] =
      ([], some "boom") :=
  ⟨rfl, C3_first_error_aborts (fun _ => Except.error "boom") "/a/bad.fa"
    ["/x.fa"] "boom" rfl⟩

/-- C5 counterexample: the claim says every invocation's output stream begins
with the nine-column header.  The legacy mtran dist entry point
(src/mtran/distance.py line 128) begins its stream with a six-column header
instead. -/
theorem C5_mtran_header_differs :
    (mtranOutputLines []).headD "" = mtranHeader ∧
    (mtranOutputLines []).headD "" ≠ tracsHeader := by
  exact ⟨rfl, by decide⟩

/-- C5 (amended): the tracs distance command's output stream always begins
with exactly the nine-column header, for every invocation regardless of
options; the legacy mtran dist command's stream instead always begins with
its six-column header, which lacks the filtered SNP distance, sites
considered and MSA file fields. -/
theorem C5_header_line (args : DistArgs) (fstr : ℚ → String)
    (ctp : List Nat → List Nat → List Int → TransProb)
    (msas : List (String × SnpDists)) (body : List String) :
    (distanceOutput args fstr ctp msas).headD "" = tracsHeader ∧
    (mtranOutputLines body).headD "" = mtranHeader :=
  ⟨rfl, rfl⟩

/-- C6 counterexample: the claim says the SNP-distance cutoff D fails
validation only when D < 0.  The converter `check_positive_int` rejects
D = 0 as well, although 0 is not below 0. -/
theorem C6_zero_threshold_rejected :
    parseSnpThreshold (some 0) = Except.error "invalid positive int value" ∧
    ¬ (0 : Int) < 0 :=
  ⟨rfl, by decide⟩

/-- C6 (amended): a supplied SNP-distance cutoff D passes validation exactly
when D > 0 (so D ≤ 0, including D = 0, fails), a supplied clock rate λ or
transmission rate β passes exactly when it is positive, and an absent cutoff
proceeds with the unbounded default. -/
theorem C6_validation_domains (v : Int) (w u : ℚ) :
    (exceptOk (parseSnpThreshold (some v)) = true ↔ 0 < v) ∧
    (exceptOk (parseClockRate (some w)) = true ↔ 0 < w) ∧
    (exceptOk (parseTransRate (some u)) = true ↔ 0 < u) ∧
    parseSnpThreshold none = Except.ok 2147483647 :=
  ⟨check_positive_int_ok v, check_positive_float_ok w,
   check_positive_float_ok u, rfl⟩

/-- C7: with no caller overrides, the SNP threshold defaults to the unbounded
sentinel 2147483647 = 2^31 - 1, the clock rate to 1e-3 × 29903, the
transmission rate to 73, the transmission-count threshold to none, the
precision to 0.01, the recombination filter to off, and the thread count
to 1. -/
theorem C7_default_parameters :
    distanceParserDefaults.snp_threshold = 2147483647 ∧
    distanceParserDefaults.snp_threshold = 2 ^ 31 - 1 ∧
    distanceParserDefaults.clock_rate = 29903 / 1000 ∧
    distanceParserDefaults.trans_rate = 73 ∧
    distanceParserDefaults.trans_threshold = none ∧
    distanceParserDefaults.precision = 1 / 100 ∧
    distanceParserDefaults.recomb_filter = false ∧
    distanceParserDefaults.n_cpu = 1 := by
  refine ⟨rfl, by decide, by norm_num [distanceParserDefaults], rfl, rfl,
    rfl, rfl, rfl⟩

/-- C2 counterexample: the claim says that with the recombination filter
disabled every emitted record's filtered SNP distance equals its raw SNP
distance.  In the dated branch the code (src/tracs/distance.py line 204)
overwrites the filtered-distance column with the literal `NA`: here the
emitted record has raw distance 5 but filtered-distance field `NA`. -/
theorem C2_na_counterexample :
    processMsa ⟨true, false, none⟩ (fun _ => "0.0")
      (fun _ _ _ => ⟨[0], [0], ["10"]⟩) "/d/y.fa"
      ⟨[0], [1], [5], ["s1", "s2"], [5], [9]⟩ =
      [⟨"s1", "s2", "10", "5", "0", "0.0", "NA", "9", "y"⟩] ∧
    ("NA" : String) ≠ "5" := by decide

/-- C2 (amended): with the recombination filter disabled, in a run with
metadata every emitted record's filtered SNP distance field is the literal
`NA`; in a run without metadata, provided pairsnp behaves as the spec
describes when the filter is off (filtered distance equal to raw distance,
sites considered equal to L minus the pair's unresolved positions), every
emitted record's filtered-distance field equals its raw-distance field and
its sites-considered field is L minus an unresolved count. -/
theorem C2_filter_disabled (thresh : Option Int) (fstr : ℚ → String)
    (ctp : List Nat → List Nat → List Int → TransProb) (msa : String)
    (sd : SnpDists) (L : Nat) (unres : List Nat) (row : Row)
    (hpair : pairsnpNoFilterOk L unres sd) :
    (row ∈ processMsa ⟨true, false, thresh⟩ fstr ctp msa sd →
      row.filtDist = "NA") ∧
    (row ∈ processMsa ⟨false, false, thresh⟩ fstr ctp msa sd →
      row.filtDist = row.snpDist ∧
      row.sitesConsidered ∈ unres.map (fun u => toString (L - u))) := by
  constructor
  · intro h
    by_cases hl : 0 < sd.I.length
    · rw [processMsa_dated ⟨true, false, thresh⟩ fstr ctp msa sd rfl hl] at h
      simp only [Bool.false_eq_true, if_false] at h
      have hmem := (datedRows_mem _ _ _ _ _ _ _ _ _ _ _ _ _ h).2
      exact List.eq_of_mem_replicate hmem
    · have hnil : sd.I = [] := List.eq_nil_of_length_eq_zero (by omega)
      simp [processMsa, hnil, undatedRows] at h
  · intro h
    rw [processMsa_undated _ _ _ _ _ rfl] at h
    obtain ⟨k, hk⟩ := List.mem_iff_getElem?.1 h
    rw [undatedRows_getElem] at hk
    cases hI : sd.I[k]? with
    | none => simp [hI] at hk
    | some i =>
    cases hJ : sd.J[k]? with
    | none => simp [hI, hJ] at hk
    | some j =>
    cases hD : sd.dist[k]? with
    | none => simp [hI, hJ, hD] at hk
    | some d =>
    cases hF : (sd.filt.map toString)[k]? with
    | none => simp [hI, hJ, hD, hF] at hk
    | some f =>
    cases hN : sd.ncomp[k]? with
    | none => simp [hI, hJ, hD, hF, hN] at hk
    | some n =>
    simp only [hI, hJ, hD, hF, hN] at hk
    simp at hk
    subst hk
    have hfd : f = toString d := by
      rw [List.getElem?_map, hpair.1, hD] at hF
      exact (Option.some.inj hF).symm
    have hnc : n ∈ sd.ncomp := List.mem_iff_getElem?.2 ⟨k, hN⟩
    constructor
    · simpa [mkUndatedRow] using hfd
    · rw [hpair.2] at hnc
      obtain ⟨u, hu, hun⟩ := List.mem_map.1 hnc
      exact List.mem_map.2 ⟨u, hu, by simp [mkUndatedRow, hun]⟩

theorem C2_filter_disabled_witness :
    pairsnpNoFilterOk 10 [1] ⟨[0], [1], [5], ["s1", "s2"], [5], [9]⟩ ∧
    ((⟨"s1", "s2", "NA", "5", "NA", "NA", "5", "9", "b"⟩ : Row) ∈
        processMsa ⟨false, false, none⟩ (fun _ => "0.0")
          (fun _ _ _ => ⟨[0], [0], ["10"]⟩) "/a/b.fa"
          ⟨[0], [1], [5], ["s1", "s2"], [5], [9]⟩ →
      (⟨"s1", "s2", "NA", "5", "NA", "NA", "5", "9", "b"⟩ : Row).filtDist =
          (⟨"s1", "s2", "NA", "5", "NA", "NA", "5", "9", "b"⟩ : Row).snpDist ∧
        (⟨"s1", "s2", "NA", "5", "NA", "NA", "5", "9", "b"⟩ : Row).sitesConsidered ∈
          [1].map (fun u => toString (10 - u))) :=
  ⟨⟨rfl, rfl⟩,
    (C2_filter_disabled none (fun _ => "0.0") (fun _ _ _ => ⟨[0], [0], ["10"]⟩)
      "/a/b.fa" ⟨[0], [1], [5], ["s1", "s2"], [5], [9]⟩ 10 [1] _
      ⟨rfl, rfl⟩).2⟩

/-- C4: in a run without metadata every pair record is emitted (none is
dropped), its date-difference, transmission-distance and expected-K fields
all hold the literal `NA`, and its SNP-distance field still reports the
pair's computed SNP distance. -/
theorem C4_undated_na_fields (args : DistArgs) (fstr : ℚ → String)
    (ctp : List Nat → List Nat → List Int → TransProb) (msa : String)
    (sd : SnpDists) (k : Nat) (row : Row)
    (hmeta : args.hasMetadata = false)
    (hJ : sd.J.length = sd.I.length) (hD : sd.dist.length = sd.I.length)
    (hF : sd.filt.length = sd.I.length) (hN : sd.ncomp.length = sd.I.length)
    (hrow : (processMsa args fstr ctp msa sd)[k]? = some row) :
    (processMsa args fstr ctp msa sd).length = sd.I.length ∧
    row.dateDiff = "NA" ∧ row.transDist = "NA" ∧ row.expectedK = "NA" ∧
    sd.dist[k]?.map (fun d => toString d) = some row.snpDist := by
  rw [processMsa_undated _ _ _ _ _ hmeta] at hrow ⊢
  refine ⟨undatedRows_length _ _ _ _ _ _ _ hJ hD (by simp [hF]) hN, ?_⟩
  rw [undatedRows_getElem] at hrow
  cases hI2 : sd.I[k]? with
  | none => simp [hI2] at hrow
  | some i =>
  cases hJ2 : sd.J[k]? with
  | none => simp [hI2, hJ2] at hrow
  | some j =>
  cases hD2 : sd.dist[k]? with
  | none => simp [hI2, hJ2, hD2] at hrow
  | some d =>
  cases hF2 : (sd.filt.map toString)[k]? with
  | none => simp [hI2, hJ2, hD2, hF2] at hrow
  | some f =>
  cases hN2 : sd.ncomp[k]? with
  | none => simp [hI2, hJ2, hD2, hF2, hN2] at hrow
  | some n =>
  simp only [hI2, hJ2, hD2, hF2, hN2] at hrow
  simp at hrow
  subst hrow
  exact ⟨rfl, rfl, rfl, rfl⟩

theorem C4_undated_na_fields_witness :
    (⟨false, false, none⟩ : DistArgs).hasMetadata = false ∧
    (processMsa ⟨false, false, none⟩ (fun _ => "")
        (fun _ _ _ => ⟨[], [], []⟩) "/a/b.fa"
        ⟨[0], [1], [5], ["s1", "s2"], [5], [9]⟩)[0]? =
      some ⟨"s1", "s2", "NA", "5", "NA", "NA", "5", "9", "b"⟩ ∧
    ((processMsa ⟨false, false, none⟩ (fun _ => "")
        (fun _ _ _ => ⟨[], [], []⟩) "/a/b.fa"
        ⟨[0], [1], [5], ["s1", "s2"], [5], [9]⟩).length = 1 ∧
      ("NA" : String) = "NA" ∧ ("NA" : String) = "NA" ∧
      ("NA" : String) = "NA" ∧
      ([5] : List Int)[0]?.map (fun d => toString d) = some "5") :=
  ⟨rfl, by decide,
    C4_undated_na_fields ⟨false, false, none⟩ (fun _ => "")
      (fun _ _ _ => ⟨[], [], []⟩) "/a/b.fa"
      ⟨[0], [1], [5], ["s1", "s2"], [5], [9]⟩ 0
      ⟨"s1", "s2", "NA", "5", "NA", "NA", "5", "9", "b"⟩
      rfl rfl rfl rfl rfl (by decide)⟩

/-- C8: when no metadata is supplied the transmission-count threshold K is
not applied: the output is the same whether K is set or not and has one row
per pair; when metadata is supplied but an alignment yields zero pairs the
threshold is likewise irrelevant; whereas in the dated branch the same K
value can drop a pair (concretely below, K = 1 drops the single pair that is
emitted when K is unset). -/
theorem C8_threshold_only_dated (k : Int) (f : Bool) (fstr : ℚ → String)
    (ctp : List Nat → List Nat → List Int → TransProb) (msa : String)
    (sd : SnpDists)
    (hJ : sd.J.length = sd.I.length) (hD : sd.dist.length = sd.I.length)
    (hF : sd.filt.length = sd.I.length) (hN : sd.ncomp.length = sd.I.length) :
    processMsa ⟨false, f, some k⟩ fstr ctp msa sd =
      processMsa ⟨false, f, none⟩ fstr ctp msa sd ∧
    (processMsa ⟨false, f, some k⟩ fstr ctp msa sd).length = sd.I.length ∧
    (sd.I = [] →
      processMsa ⟨true, f, some k⟩ fstr ctp msa sd =
        processMsa ⟨true, f, none⟩ fstr ctp msa sd) ∧
    (processMsa ⟨true, false, some 1⟩ (fun _ => "2.0")
        (fun _ _ _ => ⟨[0], [2], ["7"]⟩) "/d/m.fa"
        ⟨[0], [1], [4], ["a", "b"], [4], [8]⟩ = [] ∧
      processMsa ⟨true, false, none⟩ (fun _ => "2.0")
        (fun _ _ _ => ⟨[0], [2], ["7"]⟩) "/d/m.fa"
        ⟨[0], [1], [4], ["a", "b"], [4], [8]⟩ ≠ []) := by
  refine ⟨rfl, ?_, ?_, by decide, by decide⟩
  · rw [processMsa_undated _ _ _ _ _ rfl]
    exact undatedRows_length _ _ _ _ _ _ _ hJ hD (by simp [hF]) hN
  · intro hnil
    simp [processMsa, hnil]

theorem C8_threshold_only_dated_witness :
    (([1] : List Nat).length = ([0] : List Nat).length ∧
      ([4] : List Int).length = ([0] : List Nat).length ∧
      ([4] : List Int).length = ([0] : List Nat).length ∧
      ([8] : List Nat).length = ([0] : List Nat).length) ∧
    processMsa ⟨false, true, some 1⟩ (fun _ => "")
      (fun _ _ _ => ⟨[], [], []⟩) "/d/m.fa"
      ⟨[0], [1], [4], ["a", "b"], [4], [8]⟩ =
      processMsa ⟨false, true, none⟩ (fun _ => "")
        (fun _ _ _ => ⟨[], [], []⟩) "/d/m.fa"
        ⟨[0], [1], [4], ["a", "b"], [4], [8]⟩ ∧
    (processMsa ⟨false, true, some 1⟩ (fun _ => "")
        (fun _ _ _ => ⟨[], [], []⟩) "/d/m.fa"
        ⟨[0], [1], [4], ["a", "b"], [4], [8]⟩).length = 1 :=
  ⟨⟨rfl, rfl, rfl, rfl⟩,
    (C8_threshold_only_dated 1 true (fun _ => "") (fun _ _ _ => ⟨[], [], []⟩)
      "/d/m.fa" ⟨[0], [1], [4], ["a", "b"], [4], [8]⟩ rfl rfl rfl rfl).1,
    (C8_threshold_only_dated 1 true (fun _ => "") (fun _ _ _ => ⟨[], [], []⟩)
      "/d/m.fa" ⟨[0], [1], [4], ["a", "b"], [4], [8]⟩ rfl rfl rfl rfl).2.1⟩

/-- C9: every emitted record's MSA file field is the alignment path's base
name truncated at the first dot with every occurrence of `_combined` removed
(so the same identifier for all pairs of one alignment), and this is in
general not the alignment's path. -/
theorem C9_msa_file_field (args : DistArgs) (fstr : ℚ → String)
    (ctp : List Nat → List Nat → List Int → TransProb) (msa : String)
    (sd : SnpDists) (row : Row)
    (h : row ∈ processMsa args fstr ctp msa sd) :
    row.msaFile = refName msa ∧
    refName "/data/s1_combined.fasta.gz" = "s1" ∧
    refName "/data/s1_combined.fasta.gz" ≠ "/data/s1_combined.fasta.gz" ∧
    refName "/data/seq_combined_combinedx.fa" = "seqx" := by
  refine ⟨?_, by decide, by decide, by decide⟩
  simp only [processMsa] at h
  split at h
  · exact (datedRows_mem _ _ _ _ _ _ _ _ _ _ _ _ _ h).1
  · exact undatedRows_mem_msaFile _ _ _ _ _ _ _ _ h

theorem C9_msa_file_field_witness :
    (⟨"s1", "s2", "NA", "5", "NA", "NA", "5", "9", "b"⟩ : Row) ∈
      processMsa ⟨false, false, none⟩ (fun _ => "")
        (fun _ _ _ => ⟨[], [], []⟩) "/a/b.fa"
        ⟨[0], [1], [5], ["s1", "s2"], [5], [9]⟩ ∧
    ((⟨"s1", "s2", "NA", "5", "NA", "NA", "5", "9", "b"⟩ : Row).msaFile =
        refName "/a/b.fa" ∧
      refName "/data/s1_combined.fasta.gz" = "s1" ∧
      refName "/data/s1_combined.fasta.gz" ≠ "/data/s1_combined.fasta.gz" ∧
      refName "/data/seq_combined_combinedx.fa" = "seqx") :=
  ⟨by decide,
    C9_msa_file_field ⟨false, false, none⟩ (fun _ => "")
      (fun _ _ _ => ⟨[], [], []⟩) "/a/b.fa"
      ⟨[0], [1], [5], ["s1", "s2"], [5], [9]⟩
      ⟨"s1", "s2", "NA", "5", "NA", "NA", "5", "9", "b"⟩ (by decide)⟩

/-- C10: in the dated branch the transmission-probability oracle is invoked
on the recombination-filtered distance list when the filter is enabled and on
the raw distance list when it is disabled: the output depends on the oracle
only through its value on the filtered (respectively raw) distances. -/
theorem C10_trans_prob_input (thresh : Option Int) (fstr : ℚ → String)
    (msa : String) (sd : SnpDists)
    (ctp ctp2 ctp3 ctp4 : List Nat → List Nat → List Int → TransProb)
    (hfilt : ctp sd.I sd.J sd.filt = ctp2 sd.I sd.J sd.filt)
    (hraw : ctp3 sd.I sd.J sd.dist = ctp4 sd.I sd.J sd.dist) :
    processMsa ⟨true, true, thresh⟩ fstr ctp msa sd =
      processMsa ⟨true, true, thresh⟩ fstr ctp2 msa sd ∧
    processMsa ⟨true, false, thresh⟩ fstr ctp3 msa sd =
      processMsa ⟨true, false, thresh⟩ fstr ctp4 msa sd := by
  constructor <;> simp [processMsa, hfilt, hraw]

theorem C10_trans_prob_input_witness :
    (fun _ _ _ => (⟨[0], [0], ["x"]⟩ : TransProb)) ([0] : List Nat)
        ([1] : List Nat) ([2] : List Int) =
      (fun _ _ d => if d = [2] then (⟨[0], [0], ["x"]⟩ : TransProb)
        else ⟨[1], [1], ["y"]⟩) ([0] : List Nat) ([1] : List Nat)
        ([2] : List Int) ∧
    (fun _ _ _ => (⟨[0], [0], ["x"]⟩ : TransProb)) ([0] : List Nat)
        ([1] : List Nat) ([5] : List Int) =
      (fun _ _ d => if d = [5] then (⟨[0], [0], ["x"]⟩ : TransProb)
        else ⟨[1], [1], ["y"]⟩) ([0] : List Nat) ([1] : List Nat)
        ([5] : List Int) ∧
    processMsa ⟨true, true, none⟩ (fun _ => "0.0")
        (fun _ _ _ => ⟨[0], [0], ["x"]⟩) "/m.fa"
        ⟨[0], [1], [5], ["a", "b"], [2], [9]⟩ =
      processMsa ⟨true, true, none⟩ (fun _ => "0.0")
        (fun _ _ d => if d = [2] then ⟨[0], [0], ["x"]⟩
          else ⟨[1], [1], ["y"]⟩) "/m.fa"
        ⟨[0], [1], [5], ["a", "b"], [2], [9]⟩ ∧
    processMsa ⟨true, false, none⟩ (fun _ => "0.0")
        (fun _ _ _ => ⟨[0], [0], ["x"]⟩) "/m.fa"
        ⟨[0], [1], [5], ["a", "b"], [2], [9]⟩ =
      processMsa ⟨true, false, none⟩ (fun _ => "0.0")
        (fun _ _ d => if d = [5] then ⟨[0], [0], ["x"]⟩
          else ⟨[1], [1], ["y"]⟩) "/m.fa"
        ⟨[0], [1], [5], ["a", "b"], [2], [9]⟩ :=
  ⟨by decide, by decide,
    (C10_trans_prob_input none (fun _ => "0.0") "/m.fa"
      ⟨[0], [1], [5], ["a", "b"], [2], [9]⟩
      (fun _ _ _ => ⟨[0], [0], ["x"]⟩)
      (fun _ _ d => if d = [2] then ⟨[0], [0], ["x"]⟩ else ⟨[1], [1], ["y"]⟩)
      (fun _ _ _ => ⟨[0], [0], ["x"]⟩)
      (fun _ _ d => if d = [5] then ⟨[0], [0], ["x"]⟩ else ⟨[1], [1], ["y"]⟩)
      (by decide) (by decide)).1,
    (C10_trans_prob_input none (fun _ => "0.0") "/m.fa"
      ⟨[0], [1], [5], ["a", "b"], [2], [9]⟩
      (fun _ _ _ => ⟨[0], [0], ["x"]⟩)
      (fun _ _ d => if d = [2] then ⟨[0], [0], ["x"]⟩ else ⟨[1], [1], ["y"]⟩)
      (fun _ _ _ => ⟨[0], [0], ["x"]⟩)
      (fun _ _ d => if d = [5] then ⟨[0], [0], ["x"]⟩ else ⟨[1], [1], ["y"]⟩)
      (by decide) (by decide)).2⟩

end Tracm
